import Mathlib

/-!
# Verification of the VPE object-file back end

Shallow embedding of three source files:

* `llvm/lib/Target/X86/MCTargetDesc/X86VPEObjectWriter.cpp` — the
  per-architecture relocation-type resolver `X86VPEObjectWriter::getRelocType`.
* `llvm/include/llvm/MC/MCSymbolVPE.h` — the symbol attribute model
  (`MCSymbolVPE`: type, storage class, weak-external flag).
* `llvm/include/llvm/Object/VPEImportFile.h` — the short-import record's
  symbolic read-back view (`VPEImportFile`) and the export descriptor
  (`VPEShortExport`) with its equality.
-/

namespace VPE

/-! ## COFF machine and relocation constants

Modelled from the spec: the numeric relocation codes come from the published
PE/COFF constant tables (`llvm/BinaryFormat/COFF.h`, not part of the verified
sources); the spec requires them to "match the target format's published
constant values exactly". -/

def IMAGE_REL_AMD64_ADDR64 : Nat := 1
def IMAGE_REL_AMD64_ADDR32 : Nat := 2
def IMAGE_REL_AMD64_ADDR32NB : Nat := 3
def IMAGE_REL_AMD64_REL32 : Nat := 4
def IMAGE_REL_AMD64_SECTION : Nat := 10
def IMAGE_REL_AMD64_SECREL : Nat := 11

def IMAGE_REL_I386_DIR32 : Nat := 6
def IMAGE_REL_I386_DIR32NB : Nat := 7
def IMAGE_REL_I386_SECTION : Nat := 10
def IMAGE_REL_I386_SECREL : Nat := 11
def IMAGE_REL_I386_REL32 : Nat := 20

/-- The two machines a writer can be constructed with
(`X86VPEObjectWriter(bool Is64Bit)` selects AMD64 or I386; no other machine
value is constructible). -/
inductive Machine
  | AMD64
  | I386
  deriving DecidableEq, Repr

/-- The fixup kinds that occur in `getRelocType`'s dispatch: the generic MC
kinds (`FK_…`) and the X86-specific kinds (`reloc_…`), plus `otherKind`
standing for any kind outside the dispatch table (the `default:` arm). -/
inductive FixupKind
  | FK_Data_4
  | FK_Data_8
  | FK_PCRel_4
  | FK_SecRel_2
  | FK_SecRel_4
  | reloc_riprel_4byte
  | reloc_riprel_4byte_movq_load
  | reloc_riprel_4byte_relax
  | reloc_riprel_4byte_relax_rex
  | reloc_branch_4byte_pcrel
  | reloc_signed_4byte
  | reloc_signed_4byte_relax
  | otherKind
  deriving DecidableEq, Repr

/-- The symbol-reference modifiers `getRelocType` tests
(`MCSymbolRefExpr::VariantKind`); `VK_Other` stands for every other variant. -/
inductive VariantKind
  | VK_None
  | VK_COFF_IMGREL32
  | VK_SECREL
  | VK_Other
  deriving DecidableEq, Repr

/-- The resolved target expression of a fixup (`MCValue`): either absolute or
a symbol reference carrying a variant kind (`Target.getSymA()->getKind()`). -/
inductive MCValueTarget
  | absolute
  | symbolRef (k : VariantKind)
  deriving DecidableEq, Repr

/-- Modifier extraction: `Target.isAbsolute() ? VK_None : Target.getSymA()->getKind()`. -/
def modifierOf : MCValueTarget → VariantKind
  | .absolute => .VK_None
  | .symbolRef k => k

/-- Source `X86VPEObjectWriter::getRelocType`, embedded as a pure function.
The C++ reports diagnostics through `Ctx.reportError` and returns an
`unsigned`; we return the pair `(relocation code, reported diagnostic)`. -/
def getRelocType (machine : Machine) (target : MCValueTarget)
    (fixup : FixupKind) (isCrossSection : Bool) : Nat × Option String :=
  if isCrossSection ∧ fixup ≠ .FK_Data_4 ∧ fixup ≠ .reloc_signed_4byte then
    (IMAGE_REL_AMD64_ADDR32, some "Cannot represent this expression")
  else
    let fixupKind := if isCrossSection then FixupKind.FK_PCRel_4 else fixup
    let modifier := modifierOf target
    match machine with
    | .AMD64 =>
      match fixupKind with
      | .FK_PCRel_4
      | .reloc_riprel_4byte
      | .reloc_riprel_4byte_movq_load
      | .reloc_riprel_4byte_relax
      | .reloc_riprel_4byte_relax_rex
      | .reloc_branch_4byte_pcrel => (IMAGE_REL_AMD64_REL32, none)
      | .FK_Data_4
      | .reloc_signed_4byte
      | .reloc_signed_4byte_relax =>
        if modifier = .VK_COFF_IMGREL32 then (IMAGE_REL_AMD64_ADDR32NB, none)
        else if modifier = .VK_SECREL then (IMAGE_REL_AMD64_SECREL, none)
        else (IMAGE_REL_AMD64_ADDR32, none)
      | .FK_Data_8 => (IMAGE_REL_AMD64_ADDR64, none)
      | .FK_SecRel_2 => (IMAGE_REL_AMD64_SECTION, none)
      | .FK_SecRel_4 => (IMAGE_REL_AMD64_SECREL, none)
      | _ => (IMAGE_REL_AMD64_ADDR32, some "unsupported relocation type")
    | .I386 =>
      match fixupKind with
      | .FK_PCRel_4
      | .reloc_riprel_4byte
      | .reloc_riprel_4byte_movq_load => (IMAGE_REL_I386_REL32, none)
      | .FK_Data_4
      | .reloc_signed_4byte
      | .reloc_signed_4byte_relax =>
        if modifier = .VK_COFF_IMGREL32 then (IMAGE_REL_I386_DIR32NB, none)
        else if modifier = .VK_SECREL then (IMAGE_REL_AMD64_SECREL, none)
        else (IMAGE_REL_I386_DIR32, none)
      | .FK_SecRel_2 => (IMAGE_REL_I386_SECTION, none)
      | .FK_SecRel_4 => (IMAGE_REL_I386_SECREL, none)
      | _ => (IMAGE_REL_I386_DIR32, some "unsupported relocation type")

/-! ## Symbol attribute model (`MCSymbolVPE`) -/

/-- Source constant `SymbolFlags::SF_ClassMask`. -/
def SF_ClassMask : Nat := 0x00FF

/-- Source constant `SymbolFlags::SF_ClassShift`. -/
def SF_ClassShift : Nat := 0

/-- Source constant `SymbolFlags::SF_WeakExternal`. -/
def SF_WeakExternal : Nat := 0x0100

/-- The VPE-specific observable state of a symbol: the `Type` field
(`uint16_t`; Lean reserves the name `Type`, so the field is `Ty`) and the
flags word inherited from `MCSymbol` (`uint32_t`). -/
structure MCSymbolVPE where
  Ty : Nat
  Flags : Nat
  deriving DecidableEq, Repr

/-- Modelled from the spec: `MCSymbol::getFlags`/`MCSymbol::modifyFlags`
(declared in `llvm/MC/MCSymbol.h`, which is not among the verified sources)
perform the read-modify-write the spec describes for `setClass`: "replaces
bits [0:8) only, preserving all other flag bits (read-modify-write under the
owning symbol's flags field)"; on the 32-bit flags word that is
`Flags = (Flags & ~Mask) | Value`. -/
def modifyFlags (s : MCSymbolVPE) (value mask : Nat) : MCSymbolVPE :=
  { s with Flags := (s.Flags &&& (0xFFFFFFFF ^^^ mask)) ||| value }

/-- Source `MCSymbolVPE::getType`. -/
def getType (s : MCSymbolVPE) : Nat := s.Ty

/-- Source `MCSymbolVPE::setType`. -/
def setType (s : MCSymbolVPE) (ty : Nat) : MCSymbolVPE := { s with Ty := ty }

/-- Source `MCSymbolVPE::getClass`: `(getFlags() & SF_ClassMask) >> SF_ClassShift`. -/
def getClass (s : MCSymbolVPE) : Nat := (s.Flags &&& SF_ClassMask) >>> SF_ClassShift

/-- Source `MCSymbolVPE::setClass`:
`modifyFlags(StorageClass << SF_ClassShift, SF_ClassMask)`. -/
def setClass (s : MCSymbolVPE) (storageClass : Nat) : MCSymbolVPE :=
  modifyFlags s (storageClass <<< SF_ClassShift) SF_ClassMask

/-- Source `MCSymbolVPE::isWeakExternal`: `getFlags() & SF_WeakExternal` as a bool. -/
def isWeakExternal (s : MCSymbolVPE) : Bool := (s.Flags &&& SF_WeakExternal) != 0

/-- Source `MCSymbolVPE::setIsWeakExternal`:
`modifyFlags(SF_WeakExternal, SF_WeakExternal)`. -/
def setIsWeakExternal (s : MCSymbolVPE) : MCSymbolVPE :=
  modifyFlags s SF_WeakExternal SF_WeakExternal

/-! ## Export descriptors (`VPEShortExport`) -/

/-- Source `VPEShortExport`: one requested export. `Ordinal` is a `uint16_t` in the
source; the model stores its value. -/
structure VPEShortExport where
  Name : String
  ExtName : String
  SymbolName : String
  AliasTarget : String
  Ordinal : Nat
  Noname : Bool
  Data : Bool
  Private : Bool
  Constant : Bool
  deriving DecidableEq, Repr

/-- Source `operator==(const VPEShortExport &L, const VPEShortExport &R)`. -/
def vpeShortExportEq (L R : VPEShortExport) : Bool :=
  L.Name == R.Name && L.ExtName == R.ExtName &&
    L.Ordinal == R.Ordinal && L.Noname == R.Noname &&
    L.Data == R.Data && L.Private == R.Private

/-! ## Short-import records and their symbolic read-back (`VPEImportFile`) -/

/-- Import type tag carried in the short-import header. Modelled from the
spec: the header type (`vpe_import_header::getType()` compared against
`VPE::IMPORT_DATA`; `llvm/Object/VPE.h` is not among the verified sources)
is "a type tag distinguishing code import vs data import". -/
inductive ImportType
  | code
  | data
  deriving DecidableEq, Repr

/-- Modelled from the spec: an encoded short-import record is "a fixed
header `{signature, machine, symbolType/nameType flags}` followed by a
null-terminated external name, followed conditionally by a second
null-terminated mangled name (present only when the header's data flag is
unset)". The encoder implementation (`writeImportLibrary`) is only declared
in the verified sources, so the record is modelled by its header fields and
the two embedded names. -/
structure ShortImportRecord where
  machine : Nat
  importType : ImportType
  externalName : String
  symbolName : String
  deriving DecidableEq, Repr

/-- A null-terminated string in the record's string area. -/
def cString (s : String) : List Char := s.data ++ [Char.ofNat 0]

/-- The bytes following the fixed header: the null-terminated external name,
then — only for code imports — the null-terminated mangled name. -/
def stringArea (r : ShortImportRecord) : List Char :=
  cString r.externalName ++
    (if r.importType = ImportType.data then [] else cString r.symbolName)

/-- Reading a null-terminated C string: the characters before the first NUL. -/
def takeUntilNul : List Char → List Char
  | [] => []
  | c :: cs => if c = Char.ofNat 0 then [] else c :: takeUntilNul cs

/-- Source `VPEImportFile::isData`:
`getVPEImportHeader()->getType() == VPE::IMPORT_DATA` -/
def isData (r : ShortImportRecord) : Bool := r.importType = ImportType.data

/-- Source `VPEImportFile::printSymbolName`: prints
`StringRef(Data.getBufferStart() + sizeof(vpe_import_header))` — the
null-terminated string that starts right after the header — for every
symbol index (the `Symb` argument is unused in the source). -/
def printSymbolName (r : ShortImportRecord) (_symb : Nat) : String :=
  String.mk (takeUntilNul (stringArea r))

/-- Modelled from the spec: `SymbolRef::SF_Global` ("globally visible"),
from `llvm/Object/SymbolicFile.h`, not among the verified sources. -/
def SF_Global : Nat := 2

/-- Source `VPEImportFile::getSymbolFlags`: returns `SymbolRef::SF_Global`
unconditionally. -/
def getSymbolFlags (_r : ShortImportRecord) (_symb : Nat) : Nat := SF_Global

/-- Source `VPEImportFile::symbol_end`: the end sentinel is index
`isData() ? 1 : 2` (iteration starts at 0 and `moveSymbolNext` increments). -/
def symbolEndIndex (r : ShortImportRecord) : Nat := if isData r then 1 else 2

/-- The names the symbolic view reports when iterating from `symbol_begin`
(index 0) to `symbol_end`, printing each position with `printSymbolName`. -/
def readBackNames (r : ShortImportRecord) : List String :=
  (List.range (symbolEndIndex r)).map (printSymbolName r)

end VPE

/-! ## Helper lemmas -/

namespace VPE

lemma testBit_false_of_lt (x n i : Nat) (hx : x < 2 ^ n) (h : n ≤ i) :
    x.testBit i = false := by
  apply Nat.testBit_lt_two_pow
  calc x < 2 ^ n := hx
    _ ≤ 2 ^ i := Nat.pow_le_pow_right (by norm_num) h

lemma testBit_256_of_ne (i : Nat) (h : i ≠ 8) : Nat.testBit 256 i = false := by
  by_cases h32 : i < 32
  · interval_cases i <;> first | decide | exact absurd rfl h
  · exact testBit_false_of_lt 256 9 i (by norm_num) (by omega)

lemma masked_or_and_classMask (F c : Nat) (hc : c < 256) :
    ((F &&& (0xFFFFFFFF ^^^ 0xFF)) ||| c) &&& 0xFF = c := by
  apply Nat.eq_of_testBit_eq
  intro i
  simp only [Nat.testBit_and, Nat.testBit_or]
  by_cases h : i < 8
  · have hm : Nat.testBit 4294967040 i = false := by interval_cases i <;> decide
    have hf : Nat.testBit 255 i = true := by interval_cases i <;> decide
    simp [hm, hf]
  · have hf : Nat.testBit 255 i = false :=
      testBit_false_of_lt 255 8 i (by norm_num) (by omega)
    have hc' : c.testBit i = false := testBit_false_of_lt c 8 i hc (by omega)
    simp [hf, hc']

lemma masked_or_and_weakBit (F c : Nat) :
    ((F &&& (0xFFFFFFFF ^^^ 0xFF)) ||| c) &&& 0x100 =
      (F &&& 0x100) ||| (c &&& 0x100) := by
  apply Nat.eq_of_testBit_eq
  intro i
  simp only [Nat.testBit_and, Nat.testBit_or]
  by_cases h : i = 8
  · subst h
    have hm : Nat.testBit 4294967040 8 = true := by decide
    have hw : Nat.testBit 256 8 = true := by decide
    simp [hm, hw]
  · simp [testBit_256_of_ne i h]

lemma weak_or_and_classMask (F : Nat) :
    ((F &&& (0xFFFFFFFF ^^^ 0x100)) ||| 0x100) &&& 0xFF = F &&& 0xFF := by
  apply Nat.eq_of_testBit_eq
  intro i
  simp only [Nat.testBit_and, Nat.testBit_or]
  by_cases h : i < 8
  · have hm : Nat.testBit 4294967039 i = true := by interval_cases i <;> decide
    have hw : Nat.testBit 256 i = false := by interval_cases i <;> decide
    simp [hm, hw]
  · have hf : Nat.testBit 255 i = false :=
      testBit_false_of_lt 255 8 i (by norm_num) (by omega)
    simp [hf]

lemma weak_or_and_weakBit (F : Nat) :
    ((F &&& (0xFFFFFFFF ^^^ 0x100)) ||| 0x100) &&& 0x100 = 0x100 := by
  apply Nat.eq_of_testBit_eq
  intro i
  simp only [Nat.testBit_and, Nat.testBit_or]
  by_cases h : i = 8
  · subst h
    have hm : Nat.testBit 4294967039 8 = false := by decide
    have hw : Nat.testBit 256 8 = true := by decide
    simp [hm, hw]
  · simp [testBit_256_of_ne i h]

lemma small_and_weakBit (c : Nat) (hc : c < 256) : c &&& 0x100 = 0 := by
  apply Nat.eq_of_testBit_eq
  intro i
  simp only [Nat.testBit_and, Nat.zero_testBit]
  by_cases h : i = 8
  · subst h
    simp [testBit_false_of_lt c 8 8 hc (by omega)]
  · simp [testBit_256_of_ne i h]

lemma lor_ne_zero (a b : Nat) (h : a ≠ 0) : a ||| b ≠ 0 := by
  intro hz
  apply h
  apply Nat.eq_of_testBit_eq
  intro i
  rw [Nat.zero_testBit]
  have hb : (a ||| b).testBit i = false := by rw [hz]; exact Nat.zero_testBit i
  rw [Nat.testBit_or] at hb
  exact (Bool.or_eq_false_iff.mp hb).1

lemma getClass_setIsWeakExternal (s : MCSymbolVPE) :
    getClass (setIsWeakExternal s) = getClass s := by
  simp only [getClass, setIsWeakExternal, modifyFlags, SF_ClassMask, SF_ClassShift,
    SF_WeakExternal, Nat.shiftRight_zero]
  exact weak_or_and_classMask s.Flags

lemma isWeakExternal_setIsWeakExternal (s : MCSymbolVPE) :
    isWeakExternal (setIsWeakExternal s) = true := by
  simp only [isWeakExternal, setIsWeakExternal, modifyFlags, SF_WeakExternal]
  rw [weak_or_and_weakBit s.Flags]
  decide

lemma takeUntilNul_cString (l rest : List Char) (h : Char.ofNat 0 ∉ l) :
    takeUntilNul ((l ++ [Char.ofNat 0]) ++ rest) = l := by
  induction l with
  | nil => simp [takeUntilNul]
  | cons c cs ih =>
    simp only [List.mem_cons] at h
    push_neg at h
    simp only [List.cons_append, takeUntilNul]
    rw [if_neg (fun hc => h.1 hc.symm)]
    simp only [List.append_eq]
    rw [ih h.2]

end VPE

/-! ## Claim theorems -/

/-- C1: the resolver constructed for the 64-bit machine, with
`isCrossSection = false`, maps every 4-byte PC-relative and
RIP-relative/branch-relative kind to `IMAGE_REL_AMD64_REL32`; every 4-byte
absolute/signed kind to `IMAGE_REL_AMD64_ADDR32NB` under the image-relative
modifier, `IMAGE_REL_AMD64_SECREL` under the section-relative modifier, and
`IMAGE_REL_AMD64_ADDR32` otherwise; 8-byte absolute to
`IMAGE_REL_AMD64_ADDR64`; 2-byte section-index to
`IMAGE_REL_AMD64_SECTION`; 4-byte section-relative to
`IMAGE_REL_AMD64_SECREL` — and reports no diagnostic in any of these
cases. -/
theorem c1_amd64_dispatch (t : VPE.MCValueTarget) :
    VPE.getRelocType .AMD64 t .FK_PCRel_4 false = (VPE.IMAGE_REL_AMD64_REL32, none) ∧
    VPE.getRelocType .AMD64 t .reloc_riprel_4byte false = (VPE.IMAGE_REL_AMD64_REL32, none) ∧
    VPE.getRelocType .AMD64 t .reloc_riprel_4byte_movq_load false = (VPE.IMAGE_REL_AMD64_REL32, none) ∧
    VPE.getRelocType .AMD64 t .reloc_riprel_4byte_relax false = (VPE.IMAGE_REL_AMD64_REL32, none) ∧
    VPE.getRelocType .AMD64 t .reloc_riprel_4byte_relax_rex false = (VPE.IMAGE_REL_AMD64_REL32, none) ∧
    VPE.getRelocType .AMD64 t .reloc_branch_4byte_pcrel false = (VPE.IMAGE_REL_AMD64_REL32, none) ∧
    VPE.getRelocType .AMD64 t .FK_Data_4 false =
      ((if VPE.modifierOf t = .VK_COFF_IMGREL32 then VPE.IMAGE_REL_AMD64_ADDR32NB
        else if VPE.modifierOf t = .VK_SECREL then VPE.IMAGE_REL_AMD64_SECREL
        else VPE.IMAGE_REL_AMD64_ADDR32), none) ∧
    VPE.getRelocType .AMD64 t .reloc_signed_4byte false =
      ((if VPE.modifierOf t = .VK_COFF_IMGREL32 then VPE.IMAGE_REL_AMD64_ADDR32NB
        else if VPE.modifierOf t = .VK_SECREL then VPE.IMAGE_REL_AMD64_SECREL
        else VPE.IMAGE_REL_AMD64_ADDR32), none) ∧
    VPE.getRelocType .AMD64 t .reloc_signed_4byte_relax false =
      ((if VPE.modifierOf t = .VK_COFF_IMGREL32 then VPE.IMAGE_REL_AMD64_ADDR32NB
        else if VPE.modifierOf t = .VK_SECREL then VPE.IMAGE_REL_AMD64_SECREL
        else VPE.IMAGE_REL_AMD64_ADDR32), none) ∧
    VPE.getRelocType .AMD64 t .FK_Data_8 false = (VPE.IMAGE_REL_AMD64_ADDR64, none) ∧
    VPE.getRelocType .AMD64 t .FK_SecRel_2 false = (VPE.IMAGE_REL_AMD64_SECTION, none) ∧
    VPE.getRelocType .AMD64 t .FK_SecRel_4 false = (VPE.IMAGE_REL_AMD64_SECREL, none) := by
  cases t with
  | absolute => decide
  | symbolRef k => cases k <;> decide

/-- C2: on the 32-bit machine, a 4-byte absolute/signed fixup whose modifier
is section-relative resolves, without a diagnostic, to the 64-bit machine's
section-relative constant `IMAGE_REL_AMD64_SECREL` — the documented format
quirk. -/
theorem c2_i386_secrel_quirk (t : VPE.MCValueTarget)
    (h : VPE.modifierOf t = .VK_SECREL) :
    VPE.getRelocType .I386 t .FK_Data_4 false = (VPE.IMAGE_REL_AMD64_SECREL, none) ∧
    VPE.getRelocType .I386 t .reloc_signed_4byte false = (VPE.IMAGE_REL_AMD64_SECREL, none) ∧
    VPE.getRelocType .I386 t .reloc_signed_4byte_relax false = (VPE.IMAGE_REL_AMD64_SECREL, none) := by
  cases t with
  | absolute => simp [VPE.modifierOf] at h
  | symbolRef k =>
    simp only [VPE.modifierOf] at h
    subst h
    decide

/-- C2 witness: instantiated at a section-relative symbol reference. -/
theorem c2_i386_secrel_quirk_witness :
    VPE.getRelocType .I386 (.symbolRef .VK_SECREL) .FK_Data_4 false =
      (VPE.IMAGE_REL_AMD64_SECREL, none) :=
  (c2_i386_secrel_quirk (.symbolRef .VK_SECREL) (by decide)).1

/-- C3 counterexample: on the 32-bit machine with `isCrossSection = false`,
the relaxed RIP-relative kind `reloc_riprel_4byte_relax` does not resolve to
`IMAGE_REL_I386_REL32` without an error; it hits the default arm, which
reports "unsupported relocation type" and returns `IMAGE_REL_I386_DIR32`. -/
theorem c3_counterexample :
    VPE.getRelocType .I386 .absolute .reloc_riprel_4byte_relax false ≠
      (VPE.IMAGE_REL_I386_REL32, (none : Option String)) ∧
    VPE.getRelocType .I386 .absolute .reloc_riprel_4byte_relax false =
      (VPE.IMAGE_REL_I386_DIR32, some "unsupported relocation type") := by
  decide

/-- C3 amended: on the 32-bit machine with `isCrossSection = false`, the
4-byte PC-relative kind and the RIP-relative load kinds
(`reloc_riprel_4byte`, `reloc_riprel_4byte_movq_load`) resolve to
`IMAGE_REL_I386_REL32` without a diagnostic, while the relaxed RIP-relative
kinds and the relative-branch kind hit the default arm: they report
"unsupported relocation type" and return `IMAGE_REL_I386_DIR32`. -/
theorem c3_amended (t : VPE.MCValueTarget) :
    VPE.getRelocType .I386 t .FK_PCRel_4 false = (VPE.IMAGE_REL_I386_REL32, none) ∧
    VPE.getRelocType .I386 t .reloc_riprel_4byte false = (VPE.IMAGE_REL_I386_REL32, none) ∧
    VPE.getRelocType .I386 t .reloc_riprel_4byte_movq_load false = (VPE.IMAGE_REL_I386_REL32, none) ∧
    VPE.getRelocType .I386 t .reloc_riprel_4byte_relax false =
      (VPE.IMAGE_REL_I386_DIR32, some "unsupported relocation type") ∧
    VPE.getRelocType .I386 t .reloc_riprel_4byte_relax_rex false =
      (VPE.IMAGE_REL_I386_DIR32, some "unsupported relocation type") ∧
    VPE.getRelocType .I386 t .reloc_branch_4byte_pcrel false =
      (VPE.IMAGE_REL_I386_DIR32, some "unsupported relocation type") := by
  cases t with
  | absolute => decide
  | symbolRef k => cases k <;> decide

/-- C4 counterexample: a 2-byte section-index fixup with
`isCrossSection = true` on the 32-bit machine reports "Cannot represent this
expression" but returns `IMAGE_REL_AMD64_ADDR32` (the 64-bit machine's
code, numerically 2), which is not the 32-bit machine's generic absolute
code `IMAGE_REL_I386_DIR32` (numerically 6). -/
theorem c4_counterexample :
    VPE.getRelocType .I386 .absolute .FK_SecRel_2 true =
      (VPE.IMAGE_REL_AMD64_ADDR32, some "Cannot represent this expression") ∧
    VPE.IMAGE_REL_AMD64_ADDR32 ≠ VPE.IMAGE_REL_I386_DIR32 := by
  decide

/-- C4 amended: for every fixup with `isCrossSection = true` whose kind is
neither 4-byte absolute nor the 4-byte signed-displacement kind, the
resolver, on either machine, reports "Cannot represent this expression" and
returns `IMAGE_REL_AMD64_ADDR32` — the 64-bit machine's generic 32-bit
absolute code — even on the 32-bit machine, where that value differs from
`IMAGE_REL_I386_DIR32`. -/
theorem c4_amended (m : VPE.Machine) (t : VPE.MCValueTarget) (k : VPE.FixupKind)
    (h1 : k ≠ .FK_Data_4) (h2 : k ≠ .reloc_signed_4byte) :
    VPE.getRelocType m t k true =
      (VPE.IMAGE_REL_AMD64_ADDR32, some "Cannot represent this expression") := by
  simp [VPE.getRelocType, h1, h2]

/-- C4 amended witness: instantiated at the 2-byte section-index fixup on
the 32-bit machine. -/
theorem c4_amended_witness :
    VPE.getRelocType .I386 .absolute .FK_SecRel_2 true =
      (VPE.IMAGE_REL_AMD64_ADDR32, some "Cannot represent this expression") :=
  c4_amended .I386 .absolute .FK_SecRel_2 (by decide) (by decide)

/-- C5: a 4-byte absolute fixup with `isCrossSection = true` and modifier
none resolves, without a diagnostic, to the machine's 32-bit relative code
(`IMAGE_REL_AMD64_REL32` on the 64-bit machine, `IMAGE_REL_I386_REL32` on
the 32-bit machine), which differs from the machine's absolute code: the
effective kind is forced to 4-byte PC-relative. -/
theorem c5_cross_section_rel32 (t : VPE.MCValueTarget)
    (h : VPE.modifierOf t = .VK_None) :
    VPE.getRelocType .AMD64 t .FK_Data_4 true = (VPE.IMAGE_REL_AMD64_REL32, none) ∧
    VPE.getRelocType .I386 t .FK_Data_4 true = (VPE.IMAGE_REL_I386_REL32, none) ∧
    VPE.IMAGE_REL_AMD64_REL32 ≠ VPE.IMAGE_REL_AMD64_ADDR32 ∧
    VPE.IMAGE_REL_I386_REL32 ≠ VPE.IMAGE_REL_I386_DIR32 := by
  cases t with
  | absolute => decide
  | symbolRef k =>
    simp only [VPE.modifierOf] at h
    subst h
    decide

/-- C5 witness: instantiated at an absolute target (modifier none). -/
theorem c5_cross_section_rel32_witness :
    VPE.getRelocType .AMD64 .absolute .FK_Data_4 true =
      (VPE.IMAGE_REL_AMD64_REL32, none) :=
  (c5_cross_section_rel32 .absolute (by decide)).1

/-- C6 counterexample: encoding the code-import export with external name
"foo" and mangled symbol name "_foo" and reading it back yields the two
entries "foo" and "foo" — `printSymbolName` ignores the symbol index and
always prints the first embedded string — not "foo" then "_foo" as the
claim states. -/
theorem c6_counterexample :
    VPE.readBackNames ⟨0x8664, .code, "foo", "_foo"⟩ = ["foo", "foo"] ∧
    VPE.readBackNames ⟨0x8664, .code, "foo", "_foo"⟩ ≠ ["foo", "_foo"] := by
  decide

/-- C6 amended: reading an encoded short-import record back through the
symbolic view yields exactly two synthetic symbol entries for a code import
and exactly one for a data import, but every entry reports the external
name (the first embedded string); every reported entry is flagged globally
visible. -/
theorem c6_amended (r : VPE.ShortImportRecord)
    (h : Char.ofNat 0 ∉ r.externalName.data) :
    VPE.readBackNames r =
      (if VPE.isData r then [r.externalName] else [r.externalName, r.externalName]) ∧
    (∀ i, VPE.getSymbolFlags r i = VPE.SF_Global) := by
  constructor
  · have hname : VPE.printSymbolName r 0 = r.externalName := by
      simp only [VPE.printSymbolName, VPE.stringArea, VPE.cString]
      rw [VPE.takeUntilNul_cString r.externalName.data _ h]
    have hname1 : VPE.printSymbolName r 1 = r.externalName := hname
    simp only [VPE.readBackNames, VPE.symbolEndIndex]
    cases hd : VPE.isData r with
    | true => simp [hd, List.range_succ, hname]
    | false => simp [hd, List.range_succ, hname, hname1]
  · intro i
    rfl

/-- C6 amended witness: instantiated at the code-import record with
external name "foo" and symbol name "_foo". -/
theorem c6_amended_witness :
    VPE.readBackNames ⟨0x8664, .code, "foo", "_foo"⟩ = ["foo", "foo"] := by
  have h := (c6_amended ⟨0x8664, .code, "foo", "_foo"⟩ (by decide)).1
  simpa using h

/-- C7: `VPEShortExport` equality holds exactly when the two descriptors
agree on `Name`, `ExtName`, `Ordinal`, `Noname`, `Data` and `Private`;
`SymbolName` and `AliasTarget` (and any other field) never enter the
comparison, and a disagreement on any of the six listed fields falsifies
it. -/
theorem c7_export_equality (L R : VPE.VPEShortExport) :
    VPE.vpeShortExportEq L R = true ↔
      (L.Name = R.Name ∧ L.ExtName = R.ExtName ∧ L.Ordinal = R.Ordinal ∧
       L.Noname = R.Noname ∧ L.Data = R.Data ∧ L.Private = R.Private) := by
  simp [VPE.vpeShortExportEq, and_assoc]

/-- C7 witness: two descriptors differing in `SymbolName`, `AliasTarget`
and `Constant` but agreeing on the six compared fields are equal. -/
theorem c7_export_equality_witness :
    VPE.vpeShortExportEq ⟨"foo", "", "_foo", "", 1, false, false, false, false⟩
      ⟨"foo", "", "_bar", "baz", 1, false, false, false, true⟩ = true :=
  (c7_export_equality ⟨"foo", "", "_foo", "", 1, false, false, false, false⟩
      ⟨"foo", "", "_bar", "baz", 1, false, false, false, true⟩).mpr
    (by constructor <;> simp)

/-- C8: for every symbol state and every storage class `c` (a `u8`, so
`c < 256`), `setClass c` makes `getClass` return `c` and leaves
`isWeakExternal` unchanged — regardless of prior `setIsWeakExternal` calls,
since the state `s` is arbitrary — and `setIsWeakExternal` leaves
`getClass` unchanged: the two attributes occupy independent bit-ranges of
the one flags word. -/
theorem c8_bit_isolation (s : VPE.MCSymbolVPE) (c : Nat) (hc : c < 256) :
    VPE.getClass (VPE.setClass s c) = c ∧
    VPE.isWeakExternal (VPE.setClass s c) = VPE.isWeakExternal s ∧
    VPE.getClass (VPE.setIsWeakExternal s) = VPE.getClass s := by
  refine ⟨?_, ?_, ?_⟩
  · simp only [VPE.getClass, VPE.setClass, VPE.modifyFlags, VPE.SF_ClassMask,
      VPE.SF_ClassShift, Nat.shiftLeft_zero, Nat.shiftRight_zero]
    exact VPE.masked_or_and_classMask s.Flags c hc
  · simp only [VPE.isWeakExternal, VPE.setClass, VPE.modifyFlags, VPE.SF_ClassMask,
      VPE.SF_ClassShift, VPE.SF_WeakExternal, Nat.shiftLeft_zero]
    rw [VPE.masked_or_and_weakBit s.Flags c, VPE.small_and_weakBit c hc, Nat.or_zero]
  · exact VPE.getClass_setIsWeakExternal s

/-- C8 witness: instantiated at a weak-external symbol state and storage
class 3. -/
theorem c8_bit_isolation_witness :
    VPE.getClass (VPE.setClass ⟨0, 0x100⟩ 3) = 3 ∧
    VPE.isWeakExternal (VPE.setClass ⟨0, 0x100⟩ 3) = VPE.isWeakExternal ⟨0, 0x100⟩ ∧
    VPE.getClass (VPE.setIsWeakExternal ⟨0, 0x100⟩) = VPE.getClass ⟨0, 0x100⟩ :=
  c8_bit_isolation ⟨0, 0x100⟩ 3 (by decide)

/-- C9: `setIsWeakExternal` is idempotent — a second call changes none of
the observables `getClass`, `getType`, `isWeakExternal` — and once
`isWeakExternal` holds, no operation of the model (`setType`, `setClass`
with any argument, `setIsWeakExternal`) clears it. -/
theorem c9_weak_external_monotone (s : VPE.MCSymbolVPE) (ty c : Nat) :
    (VPE.getClass (VPE.setIsWeakExternal (VPE.setIsWeakExternal s)) =
       VPE.getClass (VPE.setIsWeakExternal s) ∧
     VPE.getType (VPE.setIsWeakExternal (VPE.setIsWeakExternal s)) =
       VPE.getType (VPE.setIsWeakExternal s) ∧
     VPE.isWeakExternal (VPE.setIsWeakExternal (VPE.setIsWeakExternal s)) =
       VPE.isWeakExternal (VPE.setIsWeakExternal s)) ∧
    (VPE.isWeakExternal s = true →
      VPE.isWeakExternal (VPE.setType s ty) = true ∧
      VPE.isWeakExternal (VPE.setClass s c) = true ∧
      VPE.isWeakExternal (VPE.setIsWeakExternal s) = true) := by
  constructor
  · refine ⟨VPE.getClass_setIsWeakExternal (VPE.setIsWeakExternal s), rfl, ?_⟩
    rw [VPE.isWeakExternal_setIsWeakExternal (VPE.setIsWeakExternal s),
      VPE.isWeakExternal_setIsWeakExternal s]
  · intro h
    refine ⟨h, ?_, VPE.isWeakExternal_setIsWeakExternal s⟩
    simp only [VPE.isWeakExternal, VPE.setClass, VPE.modifyFlags, VPE.SF_ClassMask,
      VPE.SF_ClassShift, VPE.SF_WeakExternal, Nat.shiftLeft_zero, ne_eq,
      bne_iff_ne] at h ⊢
    rw [VPE.masked_or_and_weakBit s.Flags c]
    exact VPE.lor_ne_zero _ _ h

/-- C9 witness: on a weak-external symbol state, `setClass 7` leaves the
weak-external flag set. -/
theorem c9_weak_external_monotone_witness :
    VPE.isWeakExternal (VPE.setClass ⟨0, 0x100⟩ 7) = true :=
  ((c9_weak_external_monotone ⟨0, 0x100⟩ 5 7).2 (by decide)).2.1

/-- C10: `VPEShortExport` equality also ignores the `Constant` flag — a
descriptor compares equal to itself with `Constant` replaced by any value. -/
theorem c10_equality_ignores_constant (e : VPE.VPEShortExport) (b : Bool) :
    VPE.vpeShortExportEq e { e with Constant := b } = true := by
  simp [VPE.vpeShortExportEq]
